import Mathlib

/-!
Verification of the ECP5 configuration / flash-programming engine of
`apollo_fpga` (file `apollo_fpga/ecp5.py`), as a shallow embedding.

Machine bytes and registers are modelled as `Nat` with explicit masking
where the source masks; byte strings are `List Nat`; fallible code returns
`Except String`; the device at the far end of the JTAG chain is modelled as
explicit parameters (its fixed status register word, its flash-status byte,
its busy line), and command traffic is recorded as explicit event traces.
-/

namespace Apollo

/-! ### Status register constants (`ECP5Programmer`) -/

def STATUS_FLAG_JTAG_ACTIVE : Nat := 1 <<< 4

def STATUS_FLAG_BUSY : Nat := 1 <<< 12

def STATUS_FLAG_FAIL : Nat := 1 <<< 13

def STATUS_FLAG_DONE : Nat := 1 <<< 8

def STATUS_FLAG_ID_ERROR : Nat := 1 <<< 27

def STATUS_FLAG_INVALID_COMMAND : Nat := 1 <<< 28

def STATUS_FLAG_ISC_ENABLE : Nat := 1 <<< 9

def STATUS_ERROR_SHIFT : Nat := 23

def STATUS_ERROR_MASK : Nat := 0b111

/-- The fixed 3-bit error-code -> message table `STATUS_ERROR_CODES`. -/
def STATUS_ERROR_CODES (code : Nat) : String :=
  match code with
  | 0 => "error unknown"
  | 1 => "part ID mismatch"
  | 2 => "illegal command issued"
  | 3 => "CRC check failed"
  | 4 => "preamble error"
  | 5 => "user aborted configuration"
  | 6 => "data overflow"
  | _ => "bitstream provides data past the device\x27s SRAM array"

/-- LED pattern constants of the Apollo debugger (`apollo_fpga/__init__.py`). -/
def LED_PATTERN_IDLE : Nat := 500

def LED_PATTERN_UPLOAD : Nat := 50

def SPI_FLASH_BUSY_MASK : Nat := 0b01

def SPI_FLASH_WRITE_MASK : Nat := 0b10

def SPI_FLASH_PAGE_SIZE : Nat := 256

/-! ### Bit reversal (`reverse_bits`, defined identically inside
`_generate_bit_reversed_bitstream`, `_background_spi_transfer` and
`ECP5_JTAGDebugSPIConnection.transfer`) -/

/-- The helper `reverse_bits(num)`: formats `num` as eight binary digits,
reverses the digit string and re-parses it, i.e. reverses the eight low bits.
Bit `i` of the input becomes bit `7 - i` of the output. -/
def reverse_bits (num : Nat) : Nat :=
  (num / 128) % 2
    + ((num / 64) % 2) * 2
    + ((num / 32) % 2) * 4
    + ((num / 16) % 2) * 8
    + ((num / 8) % 2) * 16
    + ((num / 4) % 2) * 32
    + ((num / 2) % 2) * 64
    + (num % 2) * 128

/-- Model of `_generate_bit_reversed_bitstream(bitstream, byte_reverse)`: reverse the
bits within every byte, then (when `byte_reverse` is set) reverse the byte
order of the whole stream. -/
def generate_bit_reversed_bitstream (bitstream : List Nat) (byte_reverse : Bool) :
    List Nat :=
  let bit_reversed := bitstream.map reverse_bits
  if byte_reverse then bit_reversed.reverse else bit_reversed

set_option maxRecDepth 4096

theorem reverse_bits_involution : ∀ n < 256, reverse_bits (reverse_bits n) = n := by
  decide

theorem reverse_bits_lt : ∀ n < 256, reverse_bits n < 256 := by
  decide

/-- C7: for every byte sequence, bit-reversing each byte twice is the
identity, reversing the byte order twice is the identity, and the combined
configuration-bitstream transform of `_generate_bit_reversed_bitstream` with
`byte_reverse=True` (bit-reverse each byte, then reverse the byte order) is
its own inverse. -/
theorem bitstream_transform_involution (b : List Nat) (hb : ∀ x ∈ b, x < 256) :
    (b.map reverse_bits).map reverse_bits = b
      ∧ b.reverse.reverse = b
      ∧ generate_bit_reversed_bitstream (generate_bit_reversed_bitstream b true) true
          = b := by
  have hmap : (b.map reverse_bits).map reverse_bits = b := by
    induction b with
    | nil => rfl
    | cons x xs ih =>
        simp only [List.map_cons, List.cons.injEq]
        exact ⟨reverse_bits_involution x (hb x (by simp)),
          ih fun y hy => hb y (by simp [hy])⟩
  refine ⟨hmap, b.reverse_reverse, ?_⟩
  simp only [generate_bit_reversed_bitstream, if_pos]
  rw [List.map_reverse, List.reverse_reverse, hmap]

theorem bitstream_transform_involution_witness :
    (∀ x ∈ [0xAA, 0x01, 0x80, 0xFF], x < 256)
      ∧ generate_bit_reversed_bitstream
          (generate_bit_reversed_bitstream [0xAA, 0x01, 0x80, 0xFF] true) true
          = [0xAA, 0x01, 0x80, 0xFF] :=
  ⟨by decide, (bitstream_transform_involution [0xAA, 0x01, 0x80, 0xFF] (by decide)).2.2⟩

/-! ### Status validation (`_validate_status`) and `configure` -/

/-- A single hexadecimal digit, lowercase, as produced by Python `x` formatting. -/
def hexDigit (n : Nat) : Char :=
  if n < 10 then Char.ofNat (48 + n) else Char.ofNat (87 + n)

/-- Python `"{:08x}".format(n)` for a 32-bit `n`: eight lowercase hex digits. -/
def hex8 (n : Nat) : String :=
  String.mk ((List.range 8).map fun i => hexDigit (n / 16 ^ (7 - i) % 16))

/-- The 3-bit error code extracted from a status word:
`(status >> STATUS_ERROR_SHIFT) & STATUS_ERROR_MASK`. -/
def errorCode (status : Nat) : Nat :=
  (status >>> STATUS_ERROR_SHIFT) &&& STATUS_ERROR_MASK

/-- The decoded error-code text for a status word, `STATUS_ERROR_CODES[error_code]`. -/
def errorCodeText (status : Nat) : String :=
  STATUS_ERROR_CODES (errorCode status)

/-- The `error_text` suffix `" ({} / {:08x})".format(...)` appended to every
hard-failure message of `_validate_status`. -/
def errorText (status : Nat) : String :=
  " (" ++ (errorCodeText status ++ (" / " ++ (hex8 status ++ ")")))

/-- Model of `_validate_status(status, expect_done, continue_anyway, expect_isc)`.
With `continue_anyway` every error is merely logged and the call returns
normally; otherwise the first triggered check raises an `IOError`.  The
checks fire in source order: FAIL, ID_ERROR, INVALID_COMMAND, then the
missing-DONE check, then the missing-ISC check. -/
def validateStatus (status : Nat) (expect_done continue_anyway expect_isc : Bool) :
    Except String Unit :=
  if continue_anyway then
    Except.ok ()
  else if status &&& STATUS_FLAG_FAIL ≠ 0 then
    Except.error ("Failed to execute last command!" ++ errorText status)
  else if status &&& STATUS_FLAG_ID_ERROR ≠ 0 then
    Except.error ("Failed to verify device IDCODE!" ++ errorText status)
  else if status &&& STATUS_FLAG_INVALID_COMMAND ≠ 0 then
    Except.error ("Last command was invalid!" ++ errorText status)
  else if expect_done ∧ status &&& STATUS_FLAG_DONE = 0 then
    Except.error ("Configuration failed: "
      ++ (errorCodeText status ++ (" / (" ++ (hex8 status ++ ")"))))
  else if expect_isc ∧ status &&& STATUS_FLAG_ISC_ENABLE = 0 then
    Except.error ("Failed to enter ISC: "
      ++ (errorCodeText status ++ (" / (" ++ (hex8 status ++ ")"))))
  else
    Except.ok ()

/-- A message contains the decoded 3-bit error code of `status`. -/
def containsErrorCode (status : Nat) (msg : String) : Prop :=
  ∃ pre post, msg = pre ++ (errorCodeText status ++ post)

/-- Model of `configure(bitstream)` of `ECP5CommandBasedProgrammer`, against a device
that always answers `LSC_READ_STATUS` with the fixed word `status`, reports
`part_id` for `READ_ID`, and is never busy.  The body runs inside a
`try/finally` whose `finally` always restores the idle LED pattern; the
returned `Nat` is the LED pattern in force after the call.  The validation
sequence mirrors the source: `expect_isc` after ISC_ENABLE, a default check
after ISC_ERASE (issued by `_execute_command` with `check_status=True`), the
`continue_anyway` post-erase check, a default check after
LSC_SET_WORKING_ADDRESS, and `expect_done` checks after the bitstream burst
and after ISC_DISABLE. -/
def configureModel (part_id status : Nat) (bitstream : List Nat) :
    Except String Unit × Nat :=
  let _burst := generate_bit_reversed_bitstream bitstream true
  let body : Except String Unit := do
    if part_id = 0 ∨ part_id = 0xFFFFFFFF then
      Except.error ("Could not detect a connected FPGA (ID: "
        ++ (hex8 part_id ++ "). Check your wiring?"))
    else pure ()
    validateStatus status false false true
    validateStatus status false false false
    validateStatus status false true false
    validateStatus status false false false
    validateStatus status true false false
    validateStatus status true false false
  (body, LED_PATTERN_IDLE)

/-- Every error message produced by `_validate_status` embeds the decoded
3-bit error code. -/
theorem validateStatus_error_containsCode (status : Nat)
    (d c i : Bool) (msg : String)
    (h : validateStatus status d c i = Except.error msg) :
    containsErrorCode status msg := by
  unfold validateStatus at h
  split at h
  · exact absurd h (by simp)
  · split at h
    · exact ⟨"Failed to execute last command! (",
        " / " ++ (hex8 status ++ ")"), by
          simpa [errorText, String.append_assoc] using (Except.error.inj h).symm⟩
    · split at h
      · exact ⟨"Failed to verify device IDCODE! (",
          " / " ++ (hex8 status ++ ")"), by
            simpa [errorText, String.append_assoc] using (Except.error.inj h).symm⟩
      · split at h
        · exact ⟨"Last command was invalid! (",
            " / " ++ (hex8 status ++ ")"), by
              simpa [errorText, String.append_assoc] using (Except.error.inj h).symm⟩
        · split at h
          · exact ⟨"Configuration failed: ", " / (" ++ (hex8 status ++ ")"),
              (Except.error.inj h).symm⟩
          · split at h
            · exact ⟨"Failed to enter ISC: ", " / (" ++ (hex8 status ++ ")"),
                (Except.error.inj h).symm⟩
            · exact absurd h (by simp)

/-- C4: for every status word with `STATUS_FLAG_FAIL` set, `_validate_status`
raises with `continue_anyway=False` and returns normally with
`continue_anyway=True` (other parameters at their defaults). -/
theorem validateStatus_fail_flag (status : Nat)
    (h : status &&& STATUS_FLAG_FAIL ≠ 0) :
    (∃ msg, validateStatus status false false false = Except.error msg)
      ∧ validateStatus status false true false = Except.ok () := by
  refine ⟨⟨"Failed to execute last command!" ++ errorText status, ?_⟩, rfl⟩
  simp [validateStatus, h]

theorem validateStatus_fail_flag_witness :
    (0x2000 &&& STATUS_FLAG_FAIL ≠ 0)
      ∧ (∃ msg, validateStatus 0x2000 false false false = Except.error msg)
      ∧ validateStatus 0x2000 false true false = Except.ok () :=
  ⟨by decide, (validateStatus_fail_flag 0x2000 (by decide)).1,
    (validateStatus_fail_flag 0x2000 (by decide)).2⟩

/-- C1: with a valid part ID, `configure()` against a device whose status
never shows DONE raises a fatal error whose message embeds the decoded 3-bit
error code; against a device whose status shows DONE (and is otherwise
healthy: ISC enters and no FAIL / ID-error / invalid-command flag) it
returns without error; and on every exit path the LED indicator ends at the
idle pattern. -/
theorem configure_status_behaviour (part_id status : Nat) (bitstream : List Nat)
    (hid : part_id ≠ 0 ∧ part_id ≠ 0xFFFFFFFF) :
    (status &&& STATUS_FLAG_DONE = 0 →
      ∃ msg, (configureModel part_id status bitstream).1 = Except.error msg
        ∧ containsErrorCode status msg)
      ∧ (status &&& STATUS_FLAG_DONE ≠ 0 →
          status &&& STATUS_FLAG_ISC_ENABLE ≠ 0 →
          status &&& STATUS_FLAG_FAIL = 0 →
          status &&& STATUS_FLAG_ID_ERROR = 0 →
          status &&& STATUS_FLAG_INVALID_COMMAND = 0 →
          (configureModel part_id status bitstream).1 = Except.ok ())
      ∧ (configureModel part_id status bitstream).2 = LED_PATTERN_IDLE := by
  refine ⟨?_, ?_, rfl⟩
  · intro hdone
    cases hV1 : validateStatus status false false true with
    | error m =>
        refine ⟨m, ?_, validateStatus_error_containsCode status false false true m hV1⟩
        simp [configureModel, hid.1, hid.2, hV1, bind, Except.bind, pure, Except.pure]
    | ok u =>
        have h1 : status &&& STATUS_FLAG_FAIL = 0 := by
          by_contra h
          simp [validateStatus, h] at hV1
        have h2 : status &&& STATUS_FLAG_ID_ERROR = 0 := by
          by_contra h
          simp [validateStatus, h1, h] at hV1
        have h3 : status &&& STATUS_FLAG_INVALID_COMMAND = 0 := by
          by_contra h
          simp [validateStatus, h1, h2, h] at hV1
        have h4 : status &&& STATUS_FLAG_ISC_ENABLE ≠ 0 := by
          intro h
          simp [validateStatus, h1, h2, h3, h] at hV1
        refine ⟨"Configuration failed: "
          ++ (errorCodeText status ++ (" / (" ++ (hex8 status ++ ")"))), ?_,
          "Configuration failed: ", " / (" ++ (hex8 status ++ ")"), rfl⟩
        simp [configureModel, validateStatus, h1, h2, h3, h4, hdone, hid.1, hid.2,
          bind, Except.bind, pure, Except.pure]
  · intro hdone hisc h1 h2 h3
    simp [configureModel, validateStatus, h1, h2, h3, hdone, hisc, hid.1, hid.2,
      bind, Except.bind, pure, Except.pure]

theorem configure_status_behaviour_witness :
    ((0x21111043 : Nat) ≠ 0 ∧ (0x21111043 : Nat) ≠ 0xFFFFFFFF)
      ∧ (∃ msg, (configureModel 0x21111043 0x200 [0xAB]).1 = Except.error msg
          ∧ containsErrorCode 0x200 msg)
      ∧ (configureModel 0x21111043 0x300 [0xAB]).1 = Except.ok ()
      ∧ (configureModel 0x21111043 0x200 [0xAB]).2 = LED_PATTERN_IDLE :=
  ⟨⟨by decide, by decide⟩,
    (configure_status_behaviour 0x21111043 0x200 [0xAB]
        ⟨by decide, by decide⟩).1 (by decide),
    (configure_status_behaviour 0x21111043 0x300 [0xAB]
        ⟨by decide, by decide⟩).2.1 (by decide) (by decide) (by decide) (by decide)
        (by decide),
    (configure_status_behaviour 0x21111043 0x200 [0xAB]
        ⟨by decide, by decide⟩).2.2⟩

/-! ### Busy-wait loops (`_wait_for_completion`, `_flash_wait_for_completion`)

Time is modelled in poll ticks: the device's busy line is a function
`busy : Nat -> Bool` giving the answer to the n-th `LSC_CHECK_BUSY` (or
flash `READ_STATUS1`) poll, and every `time.sleep` advances the clock by one
tick, so `time.monotonic()` after `n` sleeps reads `n`. -/

/-- Loop body of `_wait_for_completion`, entered with `n` sleeps already
performed.  The source computes `timeout = time.monotonic() + timeout` once
up front (here `deadline`), then, while the device reports busy, sleeps and
raises an `IOError` as soon as the clock passes the deadline. -/
def waitForCompletionAux (busy : Nat → Bool) (deadline n : Nat) :
    Except String Unit :=
  if busy n then
    if n + 1 > deadline then
      Except.error "ECP5 request timed out waiting for completion"
    else
      waitForCompletionAux busy deadline (n + 1)
  else
    Except.ok ()
termination_by deadline + 1 - n
decreasing_by omega

/-- Model of `_wait_for_completion(timeout)`: deadline computed up front, then the
poll/sleep loop. -/
def waitForCompletion (busy : Nat → Bool) (deadline : Nat) : Except String Unit :=
  waitForCompletionAux busy deadline 0

/-- Loop body of `_flash_wait_for_completion`, with `fuel` bounding how many
iterations we are willing to unroll: the source loop is `while True: sleep;
read STATUS1; break when the busy bit clears`, with no deadline, so a run
that exhausts its fuel (`none`) is still looping — it has neither completed
nor raised.  `some n` means the busy bit was observed clear on poll `n`. -/
def flashWaitAux (busyBit : Nat → Bool) (n fuel : Nat) : Option Nat :=
  match fuel with
  | 0 => none
  | fuel + 1 =>
      if busyBit n then flashWaitAux busyBit (n + 1) fuel else some n

/-- Model of `_flash_wait_for_completion`, observed for at most `fuel` polls. -/
def flashWaitForCompletionFuel (busyBit : Nat → Bool) (fuel : Nat) : Option Nat :=
  flashWaitAux busyBit 0 fuel

/-- An always-busy device. -/
def alwaysBusy : Nat → Bool := fun _ => true

theorem waitForCompletionAux_busy_error (busy : Nat → Bool) (deadline : Nat) :
    ∀ n, (∀ k, busy k = true) →
      waitForCompletionAux busy deadline n
        = Except.error "ECP5 request timed out waiting for completion" := by
  intro n hb
  suffices h : ∀ m n, deadline + 1 - n ≤ m →
      waitForCompletionAux busy deadline n
        = Except.error "ECP5 request timed out waiting for completion" from
    h _ n le_rfl
  intro m
  induction m with
  | zero =>
      intro n hm
      rw [waitForCompletionAux, hb n]
      simp only [if_pos (by omega : n + 1 > deadline), if_true]
  | succ m ih =>
      intro n hm
      rw [waitForCompletionAux, hb n]
      by_cases h : n + 1 > deadline
      · simp only [if_pos h, if_true]
      · simp only [if_neg h, if_true]
        exact ih (n + 1) (by omega)

theorem flashWaitAux_busy_none (busyBit : Nat → Bool) :
    ∀ fuel n, (∀ k, busyBit k = true) → flashWaitAux busyBit n fuel = none := by
  intro fuel
  induction fuel with
  | zero => intro n _; rfl
  | succ m ih =>
      intro n hb
      rw [flashWaitAux]
      simp only [hb n, if_pos]
      exact ih (n + 1) hb

/-- C5 counterexample: against a device that stays busy forever,
`_wait_for_completion` raises its timeout error once the up-front deadline
passes, but the flash busy loop `_flash_wait_for_completion` — run here for
one thousand polls — has still neither completed nor raised anything: it
has no deadline and no timeout error at all. -/
theorem flash_busy_loop_no_deadline_counterexample :
    waitForCompletion alwaysBusy 100
        = Except.error "ECP5 request timed out waiting for completion"
      ∧ flashWaitForCompletionFuel alwaysBusy 1000 = none :=
  ⟨waitForCompletionAux_busy_error alwaysBusy 100 0 (fun _ => rfl),
    flashWaitAux_busy_none alwaysBusy 1000 0 (fun _ => rfl)⟩

/-- C5 amended: `_wait_for_completion` computes its wall-clock deadline up
front, sleeps between polls, and raises a timeout error if the deadline
passes while the device stays busy (completing normally when the busy line
clears in time); the flash busy-poll loop `_flash_wait_for_completion`
sleeps between polls but computes no deadline and never raises a timeout —
while the device stays busy it simply keeps polling, for any finite number
of polls. -/
theorem busy_wait_loops (busy : Nat → Bool) (deadline : Nat) :
    ((∀ k, busy k = true) →
        waitForCompletion busy deadline
          = Except.error "ECP5 request timed out waiting for completion")
      ∧ (busy 0 = false → waitForCompletion busy deadline = Except.ok ())
      ∧ ((∀ k, busy k = true) →
          ∀ fuel, flashWaitForCompletionFuel busy fuel = none) := by
  refine ⟨fun hb => waitForCompletionAux_busy_error busy deadline 0 hb,
    fun h0 => ?_, fun hb fuel => flashWaitAux_busy_none busy fuel 0 hb⟩
  rw [waitForCompletion, waitForCompletionAux, h0]
  simp

theorem busy_wait_loops_witness :
    (∀ k, alwaysBusy k = true)
      ∧ waitForCompletion alwaysBusy 3
          = Except.error "ECP5 request timed out waiting for completion"
      ∧ ((fun _ => false : Nat → Bool) 0 = false)
      ∧ waitForCompletion (fun _ => false) 3 = Except.ok ()
      ∧ flashWaitForCompletionFuel alwaysBusy 7 = none :=
  ⟨fun _ => rfl,
    (busy_wait_loops alwaysBusy 3).1 (fun _ => rfl),
    rfl,
    (busy_wait_loops (fun _ => false) 3).2.1 rfl,
    (busy_wait_loops alwaysBusy 3).2.2 (fun _ => rfl) 7⟩

/-! ### Background SPI transfers (`_background_spi_transfer`,
`ECP5_JTAGDebugSPIConnection.transfer`) -/

/-- Result of one background SPI transfer: the byte payload handed to the
JTAG data-register shift, the shift length in bits, and the byte string
returned to the caller. -/
structure SpiTransferResult where
  payload : List Nat
  bitsToSend : Nat
  response : List Nat
  deriving Repr, DecidableEq

/-- Model of `_background_spi_transfer(data, reverse)` against a chain whose
data-register shift captures `chainResponse`: unless the caller passed
already-reversed data (`reverse=True`), the payload is the input with its
byte order reversed and then each byte bit-reversed, shifted as
`len(data) * 8` bits, and the captured response is bit-reversed per byte on
the way out (with `reverse=True` both reversals collapse to the identity
byte map, keeping the byte-order flip of the payload). -/
def backgroundSpiTransfer (data : List Nat) (reverse : Bool)
    (chainResponse : List Nat) : SpiTransferResult :=
  let need_to_reverse := !reverse
  let rb : Nat → Nat := if need_to_reverse then reverse_bits else id
  let byte_reversed_data := data.reverse
  let jtag_ready_data := byte_reversed_data.map rb
  let bits_to_send := jtag_ready_data.length * 8
  { payload := jtag_ready_data
    bitsToSend := bits_to_send
    response := chainResponse.map rb }

/-- Model of `ECP5_JTAGDebugSPIConnection.transfer(data_to_send)`: same byte-reverse
plus per-byte bit-reverse on the payload, and the same per-byte bit-reverse
on the captured response. -/
def debugSpiTransfer (data_to_send : List Nat) (chainResponse : List Nat) :
    SpiTransferResult :=
  let byte_reversed_data := data_to_send.reverse
  let jtag_ready_data := byte_reversed_data.map reverse_bits
  let bits_to_send := jtag_ready_data.length * 8
  { payload := jtag_ready_data
    bitsToSend := bits_to_send
    response := chainResponse.map reverse_bits }

/-- C6: with the default reverse flag, the payload a background SPI transfer
shifts through the JTAG data register is the input byte-order-reversed and
then bit-reversed within each byte, the shift is exactly `8 * byte count`
bits long, and the returned response is the captured data bit-reversed
within each byte on the way out; the JTAG-tunneled debug SPI `transfer`
applies the identical transform. -/
theorem background_spi_transfer_reversal (data chainResponse : List Nat) :
    backgroundSpiTransfer data false chainResponse
        = { payload := (data.reverse).map reverse_bits
            bitsToSend := 8 * data.length
            response := chainResponse.map reverse_bits }
      ∧ debugSpiTransfer data chainResponse
          = backgroundSpiTransfer data false chainResponse := by
  constructor
  · simp [backgroundSpiTransfer, Nat.mul_comm]
  · simp [backgroundSpiTransfer, debugSpiTransfer]

/-! ### Register-width auto-detection (`ECP5_JTAGRegisters`) -/

def OPCODE_INSTRUCTION : Nat := 0x32

def OPCODE_DATA : Nat := 0x38

/-- Scan loop of `_autodetect_width_for`: `for index, value in
enumerate(response): if not value: return index`, returning the index of the
first clear bit. -/
def widthScan : List Bool → Nat → Option Nat
  | [], _ => none
  | b :: rest, index => if b then widthScan rest (index + 1) else some index

/-- Model of `_autodetect_width_for(opcode, chain)` applied to the already-captured,
already-`reversed()` 128-bit response: the index of the first zero bit, or 0
when no zero was seen at all. -/
def autodetect_width_for (response : List Bool) : Nat :=
  (widthScan response 0).getD 0

/-- Modelled from the spec: the missing `jtag.py` / `support/bits.py`
sources define `shift_data(length=128)` (shifting out all-ones) and
`bits.reversed()`; per the spec the composite hands back the probed
register's contents in shift order, so a register pre-loaded with `n` ones
followed by zeroes yields `n` ones and then `128 - n` zeroes. -/
def simulatedRegisterResponse (n : Nat) : List Bool :=
  List.replicate n true ++ List.replicate (128 - n) false

/-- Model of `_autodetect_widths(chain)`: probes the data register first, then the
instruction register (the returned opcode list records the probe order), and
fails unless both detected widths are non-zero multiples of 8.  The result
pair is `(data width, instruction width)`. -/
def autodetect_widths (dataResponse instrResponse : List Bool) :
    List Nat × Except String (Nat × Nat) :=
  let data_width := autodetect_width_for dataResponse
  let instruction_width := autodetect_width_for instrResponse
  let invalid_shape :=
    instruction_width = 0 ∨ data_width = 0
      ∨ instruction_width % 8 ≠ 0 ∨ data_width % 8 ≠ 0
  ([OPCODE_DATA, OPCODE_INSTRUCTION],
    if invalid_shape then
      Except.error "Failed to autonegotiate meta-JTAG address/register size."
    else
      Except.ok (data_width, instruction_width))

theorem widthScan_replicate_true (rest : List Bool) :
    ∀ n i, widthScan (List.replicate n true ++ false :: rest) i = some (i + n) := by
  intro n
  induction n with
  | zero => intro i; simp [widthScan]
  | succ m ih =>
      intro i
      rw [List.replicate_succ]
      simpa [widthScan, Nat.add_comm, Nat.add_assoc, Nat.add_left_comm] using ih (i + 1)

/-- The scan returns exactly the number of leading ones. -/
theorem autodetect_width_for_leading_ones (n : Nat) (rest : List Bool) :
    autodetect_width_for (List.replicate n true ++ false :: rest) = n := by
  rw [autodetect_width_for, widthScan_replicate_true rest n 0, Nat.zero_add]
  rfl

/-- C3: width auto-detection probes the data register before the instruction
register, detects exactly `n` against a register that shifts out `n` ones
followed by a zero (for every `n ≤ 127`), and raises a configuration error
if and only if either detected width is zero or not a multiple of 8. -/
theorem autodetect_widths_behaviour (nd ni : Nat)
    (hd : nd ≤ 127) (hi : ni ≤ 127) :
    (autodetect_widths (simulatedRegisterResponse nd)
          (simulatedRegisterResponse ni)).1 = [OPCODE_DATA, OPCODE_INSTRUCTION]
      ∧ autodetect_width_for (simulatedRegisterResponse nd) = nd
      ∧ autodetect_width_for (simulatedRegisterResponse ni) = ni
      ∧ ((autodetect_widths (simulatedRegisterResponse nd)
            (simulatedRegisterResponse ni)).2
            = Except.error "Failed to autonegotiate meta-JTAG address/register size."
          ↔ (nd = 0 ∨ ni = 0 ∨ nd % 8 ≠ 0 ∨ ni % 8 ≠ 0))
      ∧ (¬(nd = 0 ∨ ni = 0 ∨ nd % 8 ≠ 0 ∨ ni % 8 ≠ 0) →
          (autodetect_widths (simulatedRegisterResponse nd)
              (simulatedRegisterResponse ni)).2 = Except.ok (nd, ni)) := by
  have hwd : autodetect_width_for (simulatedRegisterResponse nd) = nd := by
    have : simulatedRegisterResponse nd
        = List.replicate nd true ++ false :: List.replicate (127 - nd) false := by
      rw [simulatedRegisterResponse,
        show 128 - nd = (127 - nd) + 1 by omega, List.replicate_succ]
    rw [this, autodetect_width_for_leading_ones]
  have hwi : autodetect_width_for (simulatedRegisterResponse ni) = ni := by
    have : simulatedRegisterResponse ni
        = List.replicate ni true ++ false :: List.replicate (127 - ni) false := by
      rw [simulatedRegisterResponse,
        show 128 - ni = (127 - ni) + 1 by omega, List.replicate_succ]
    rw [this, autodetect_width_for_leading_ones]
  refine ⟨rfl, hwd, hwi, ?_, ?_⟩
  · rw [autodetect_widths]
    simp only [hwd, hwi]
    constructor
    · intro h
      by_contra hc
      rw [if_neg (by tauto)] at h
      exact Except.noConfusion h
    · intro h
      rw [if_pos (by tauto)]
  · intro h
    rw [autodetect_widths]
    simp only [hwd, hwi]
    rw [if_neg (by tauto)]

theorem autodetect_widths_behaviour_witness :
    ((8 : Nat) ≤ 127) ∧ ((127 : Nat) ≤ 127)
      ∧ (autodetect_widths (simulatedRegisterResponse 8)
            (simulatedRegisterResponse 8)).2 = Except.ok (8, 8)
      ∧ (autodetect_widths (simulatedRegisterResponse 8)
            (simulatedRegisterResponse 127)).2
          = Except.error "Failed to autonegotiate meta-JTAG address/register size." :=
  ⟨by decide, by decide,
    (autodetect_widths_behaviour 8 8 (by decide) (by decide)).2.2.2.2 (by decide),
    ((autodetect_widths_behaviour 8 127 (by decide) (by decide)).2.2.2.1).2
      (by decide)⟩

/-! ### Register transactions (`ECP5_JTAGRegisters.register_transaction`) -/

/-- One meta-JTAG chain operation, as performed by `_shift_with_opcode`:
an 8-bit instruction shift selecting `opcode`, a data shift of `tdi` over
`length` bits, or a `run_test` pause. -/
inductive MetaEvent where
  | shiftInstruction (opcode length : Nat)
  | shiftData (tdi length : Nat)
  | runTest (cycles : Nat)
  deriving Repr, DecidableEq

/-- Trace of `_shift_with_opcode(chain, opcode, tdi, length)`: select the
register with an 8-bit instruction shift, shift the payload, pause for 32
run-test cycles. -/
def shift_with_opcode (opcode tdi length : Nat) : List MetaEvent :=
  [MetaEvent.shiftInstruction opcode 8, MetaEvent.shiftData tdi length,
    MetaEvent.runTest 32]

/-- Model of `register_transaction(address, is_write, value)` with the session's
detected widths `instruction_width` / `data_width` already cached, against a
device whose data-register shift hands back `captured`.  Returns the chain
trace and the integer result (`int(raw_result)`; the integer/bit-vector
conversions live in the missing `support/bits.py`, whose lossless
`int` round trip the spec guarantees, so the captured word is carried as a
`Nat`). -/
def register_transaction (instruction_width data_width : Nat)
    (address : Nat) (is_write : Bool) (value : Nat) (captured : Nat) :
    List MetaEvent × Nat :=
  let write_flag_position := instruction_width - 1
  let write_flag := if is_write then 1 <<< write_flag_position else 0
  let command := write_flag ||| address
  (shift_with_opcode OPCODE_INSTRUCTION command instruction_width
      ++ shift_with_opcode OPCODE_DATA value data_width,
    captured)

/-- C8: for every valid address (one that fits below the write-flag bit) and
detected widths, `register_transaction` first shifts into the instruction
register a `w`-bit command word whose bit `w-1` is set exactly when
`is_write` is set and whose remaining bits equal the address, then shifts
the `data_width`-bit value word into the data register, and returns the
captured data-register word as an unsigned integer. -/
theorem register_transaction_encoding (instruction_width data_width : Nat)
    (address : Nat) (is_write : Bool) (value captured : Nat)
    (_hw : 0 < instruction_width)
    (ha : address < 2 ^ (instruction_width - 1)) :
    ∃ command,
      (register_transaction instruction_width data_width address is_write value
            captured).1
          = [MetaEvent.shiftInstruction OPCODE_INSTRUCTION 8,
              MetaEvent.shiftData command instruction_width,
              MetaEvent.runTest 32,
              MetaEvent.shiftInstruction OPCODE_DATA 8,
              MetaEvent.shiftData value data_width,
              MetaEvent.runTest 32]
        ∧ command.testBit (instruction_width - 1) = is_write
        ∧ (∀ i, i ≠ instruction_width - 1 →
            command.testBit i = address.testBit i)
        ∧ (register_transaction instruction_width data_width address is_write value
              captured).2 = captured := by
  refine ⟨(if is_write then 1 <<< (instruction_width - 1) else 0) ||| address,
    rfl, ?_, ?_, rfl⟩
  · cases is_write with
    | false =>
        simp [Nat.testBit_lor, Nat.testBit_eq_false_of_lt ha]
    | true =>
        simp [Nat.one_shiftLeft, Nat.testBit_lor, Nat.testBit_two_pow_self]
  · intro i hi
    cases is_write with
    | false =>
        simp [Nat.testBit_lor]
    | true =>
        simp [Nat.one_shiftLeft, Nat.testBit_lor,
          Nat.testBit_two_pow_of_ne (fun h => hi h.symm)]

theorem register_transaction_encoding_witness :
    (0 < 8) ∧ (0x16 < 2 ^ (8 - 1))
      ∧ ∃ command,
          (register_transaction 8 32 0x16 true 0xDEAD 0xBEEF).1
              = [MetaEvent.shiftInstruction OPCODE_INSTRUCTION 8,
                  MetaEvent.shiftData command 8,
                  MetaEvent.runTest 32,
                  MetaEvent.shiftInstruction OPCODE_DATA 8,
                  MetaEvent.shiftData 0xDEAD 32,
                  MetaEvent.runTest 32]
            ∧ command.testBit (8 - 1) = true
            ∧ (∀ i, i ≠ 8 - 1 → command.testBit i = (0x16 : Nat).testBit i)
            ∧ (register_transaction 8 32 0x16 true 0xDEAD 0xBEEF).2 = 0xBEEF :=
  ⟨by decide, by decide,
    register_transaction_encoding 8 32 0x16 true 0xDEAD 0xBEEF
      (by decide) (by decide)⟩

/-! ### Flash operations over the background SPI bridge

The configuration flash is modelled as a device with a fixed `READ_ID`
device-ID byte, a fixed `READ_STATUS1` status byte (bit 0 = busy,
bit 1 = write-enabled) and a byte-addressed memory.  Every
`_background_spi_transfer` issued by a flash operation is recorded as a
`FlashEvent.spi` carrying the byte string sent; the closing
`trigger_reconfiguration()` is recorded as `FlashEvent.reconfig`.  An
operation finishes `ok`, raises (`err`), or — when a busy-poll loop spins on
a status that never clears — hangs. -/

namespace FlashOpcode

def WRITE_STATUS1 : Nat := 0x01

def WRITE_PAGE : Nat := 0x02

def READ_PAGE : Nat := 0x03

def READ_STATUS1 : Nat := 0x05

def ENABLE_WRITE : Nat := 0x06

def READ_ID : Nat := 0x90

def READ_JEDEC_ID : Nat := 0x9F

def CHIP_ERASE : Nat := 0xC7

end FlashOpcode

/-- One observable step of a flash operation. -/
inductive FlashEvent where
  | spi (data : List Nat)
  | reconfig
  deriving Repr, DecidableEq

/-- How a modelled operation ends: normally, with a raised error, or
spinning forever in a busy-poll loop. -/
inductive Outcome (α : Type) where
  | ok (value : α)
  | err (msg : String)
  | hang
  deriving Repr

/-- The modelled configuration flash. -/
structure FlashDevice where
  idByte : Nat
  status : Nat
  mem : Nat → Nat

/-- Sequencing of trace-producing steps: events accumulate; an error or a
hang cuts the continuation off. -/
def seqE {α β : Type} (step : List FlashEvent × Outcome α)
    (next : α → List FlashEvent × Outcome β) : List FlashEvent × Outcome β :=
  match step with
  | (evs, Outcome.ok a) => ((next a).1 |> (evs ++ ·), (next a).2)
  | (evs, Outcome.err m) => (evs, Outcome.err m)
  | (evs, Outcome.hang) => (evs, Outcome.hang)

/-- Model of `address.to_bytes(3, byteorder='big')`. -/
def addressBytes3 (address : Nat) : List Nat :=
  [address / 65536 % 256, address / 256 % 256, address % 256]

/-- Model of `_flash_wait_for_completion()` inside a flash operation: sleeps and
reads STATUS1; with the device's fixed status byte the loop exits after the
first poll when the busy bit is clear and otherwise never exits. -/
def flash_wait_for_completion (dev : FlashDevice) : List FlashEvent × Outcome Unit :=
  if dev.status &&& SPI_FLASH_BUSY_MASK = 0 then
    ([FlashEvent.spi [FlashOpcode.READ_STATUS1, 0]], Outcome.ok ())
  else
    ([FlashEvent.spi [FlashOpcode.READ_STATUS1, 0]], Outcome.hang)

/-- Model of `_get_flash_status()`: a STATUS1 read returning the status byte. -/
def get_flash_status (dev : FlashDevice) : List FlashEvent × Outcome Nat :=
  ([FlashEvent.spi [FlashOpcode.READ_STATUS1, 0]], Outcome.ok dev.status)

/-- Model of `_enable_writing_to_flash()`: wait for pending work, issue ENABLE_WRITE,
then re-read the status and raise unless the write-enable bit reads set. -/
def enable_writing_to_flash (dev : FlashDevice) : List FlashEvent × Outcome Unit :=
  seqE (flash_wait_for_completion dev) fun _ =>
  seqE ([FlashEvent.spi [FlashOpcode.ENABLE_WRITE]], Outcome.ok ()) fun _ =>
  seqE (get_flash_status dev) fun st =>
  if st &&& SPI_FLASH_WRITE_MASK = 0 then
    ([], Outcome.err "Flash did not enter a writeable state!")
  else
    ([], Outcome.ok ())

/-- Model of `_flash_write_page(address, data)`: enable writing, send the WRITE_PAGE
command with its 3-byte big-endian address prefix, and wait for the busy bit
to clear. -/
def flash_write_page (dev : FlashDevice) (address : Nat) (data : List Nat) :
    List FlashEvent × Outcome Unit :=
  seqE (enable_writing_to_flash dev) fun _ =>
  seqE ([FlashEvent.spi (FlashOpcode.WRITE_PAGE :: (addressBytes3 address ++ data))],
      Outcome.ok ()) fun _ =>
  flash_wait_for_completion dev

/-- Model of `_flash_read_page(address, size)`: READ_PAGE with the address prefix and
`size` padding bytes; the response minus its 4 echo bytes is the page data. -/
def flash_read_page (dev : FlashDevice) (address size : Nat) :
    List FlashEvent × Outcome (List Nat) :=
  ([FlashEvent.spi (FlashOpcode.READ_PAGE ::
      (addressBytes3 address ++ List.replicate size 0))],
    Outcome.ok ((List.range size).map fun i => dev.mem (address + i)))

/-- Model of `_enter_background_spi()` with its default flash reset: eight NO-OP
`0xFF` bytes, then the `0x66`/`0x99` reset pair (the JTAG-level unlock shifts
are not SPI transfers and are not flash events). -/
def enter_background_spi : List FlashEvent :=
  [FlashEvent.spi (List.replicate 8 0xFF), FlashEvent.spi [0x66],
    FlashEvent.spi [0x99]]

/-- The page loop of `flash()`: while data remains, split off one
256-byte page, program it, and advance the address by the page length. -/
def writePagesLoop (dev : FlashDevice) : Nat → List Nat → List FlashEvent × Outcome Unit
  | _, [] => ([], Outcome.ok ())
  | address, b :: rest =>
      let chunk := List.take SPI_FLASH_PAGE_SIZE (b :: rest)
      seqE (flash_write_page dev address chunk) fun _ =>
        writePagesLoop dev (address + chunk.length)
          (List.drop SPI_FLASH_PAGE_SIZE (b :: rest))
termination_by _ remaining => remaining.length
decreasing_by
  simp [SPI_FLASH_PAGE_SIZE]
  omega

/-- Model of `flash(bitstream, erase_first, disable_protections)`. -/
def flashOp (dev : FlashDevice) (bitstream : List Nat)
    (erase_first disable_protections : Bool) : List FlashEvent × Outcome Unit :=
  seqE (enter_background_spi, Outcome.ok ()) fun _ =>
  seqE ([FlashEvent.spi [FlashOpcode.READ_ID, 0, 0, 0, 0]],
      Outcome.ok dev.idByte) fun flash_id =>
  if flash_id = 0x00 ∨ flash_id = 0xFF then
    ([], Outcome.err "Flash does not seem correctly connected to the FPGA!")
  else
    seqE (if disable_protections then
        seqE (enable_writing_to_flash dev) fun _ =>
          ([FlashEvent.spi [FlashOpcode.WRITE_STATUS1, 0]], Outcome.ok ())
      else ([], Outcome.ok ())) fun _ =>
    seqE (if erase_first then
        seqE (enable_writing_to_flash dev) fun _ =>
        seqE ([FlashEvent.spi [FlashOpcode.CHIP_ERASE]], Outcome.ok ()) fun _ =>
        flash_wait_for_completion dev
      else ([], Outcome.ok ())) fun _ =>
    seqE (writePagesLoop dev 0 bitstream) fun _ =>
    ([FlashEvent.reconfig], Outcome.ok ())

/-- The page loop of `read_flash()`: while bytes remain, read
`min(256, remaining)` bytes (a full or final partial page) and advance. -/
def readPagesLoop (dev : FlashDevice) : Nat → Nat → List FlashEvent × Outcome (List Nat)
  | _, 0 => ([], Outcome.ok [])
  | address, n + 1 =>
      let chunk_size := min SPI_FLASH_PAGE_SIZE (n + 1)
      seqE (flash_read_page dev address chunk_size) fun chunk =>
      seqE (readPagesLoop dev (address + chunk_size) (n + 1 - chunk_size)) fun rest =>
      ([], Outcome.ok (chunk ++ rest))
termination_by _ remaining => remaining
decreasing_by
  simp [SPI_FLASH_PAGE_SIZE]

/-- Model of `read_flash(length)`. -/
def read_flash_op (dev : FlashDevice) (length : Nat) :
    List FlashEvent × Outcome (List Nat) :=
  seqE (enter_background_spi, Outcome.ok ()) fun _ =>
  seqE ([FlashEvent.spi [FlashOpcode.READ_ID, 0, 0, 0, 0]],
      Outcome.ok dev.idByte) fun flash_id =>
  if flash_id = 0x00 ∨ flash_id = 0xFF then
    ([], Outcome.err "Flash does not seem correctly connected to the FPGA!")
  else
    readPagesLoop dev 0 length

/-! ### Trace predicates for the flash claims -/

/-- Whether an event is a `WRITE_PAGE` SPI command. -/
def isWritePageEvent : FlashEvent → Bool
  | FlashEvent.spi (op :: _) => op == FlashOpcode.WRITE_PAGE
  | _ => false

/-- Whether an event is an SPI command that erases, programs or reads the
flash array (CHIP_ERASE, WRITE_PAGE or READ_PAGE). -/
def touchesFlashContents : FlashEvent → Bool
  | FlashEvent.spi (op :: _) =>
      op == FlashOpcode.CHIP_ERASE || op == FlashOpcode.WRITE_PAGE
        || op == FlashOpcode.READ_PAGE
  | _ => false

/-- Extracts from a trace every write-enable + write-page + busy-poll
sequence: an `ENABLE_WRITE`, the status read observing it, a `WRITE_PAGE`
carrying a 3-byte big-endian address and the page data, and the closing
busy poll.  Returns the decoded `(address, page data)` pairs in order. -/
def pageWriteSeqs : List FlashEvent → List (Nat × List Nat)
  | FlashEvent.spi [6] :: FlashEvent.spi [5, 0]
      :: FlashEvent.spi (2 :: a :: b :: c :: data) :: FlashEvent.spi [5, 0] :: rest =>
      ((a * 256 + b) * 256 + c, data) :: pageWriteSeqs rest
  | _ :: rest => pageWriteSeqs rest
  | [] => []

/-- C10: when the `READ_ID` flash-presence probe of `flash()` or
`read_flash()` answers with device-ID byte `0x00` or `0xFF`, the operation
raises its I/O error right after the probe: the whole trace is the
background-SPI entry plus the probe itself, so no erase, page-write or
page-read command is ever issued and the flash contents are untouched. -/
theorem flash_probe_guards_operations (dev : FlashDevice) (bitstream : List Nat)
    (erase_first disable_protections : Bool) (length : Nat)
    (hbad : dev.idByte = 0x00 ∨ dev.idByte = 0xFF) :
    (flashOp dev bitstream erase_first disable_protections).1
        = enter_background_spi ++ [FlashEvent.spi [FlashOpcode.READ_ID, 0, 0, 0, 0]]
      ∧ (flashOp dev bitstream erase_first disable_protections).2
          = Outcome.err "Flash does not seem correctly connected to the FPGA!"
      ∧ (∀ e ∈ (flashOp dev bitstream erase_first disable_protections).1,
          touchesFlashContents e = false)
      ∧ (read_flash_op dev length).1
          = enter_background_spi ++ [FlashEvent.spi [FlashOpcode.READ_ID, 0, 0, 0, 0]]
      ∧ (read_flash_op dev length).2
          = Outcome.err "Flash does not seem correctly connected to the FPGA!"
      ∧ (∀ e ∈ (read_flash_op dev length).1, touchesFlashContents e = false) := by
  have hif : (dev.idByte = 0x00 ∨ dev.idByte = 0xFF) = True := by
    simp [hbad]
  refine ⟨?_, ?_, ?_, ?_, ?_, ?_⟩ <;>
    simp [flashOp, read_flash_op, seqE, hif, enter_background_spi,
      touchesFlashContents, FlashOpcode.READ_ID, FlashOpcode.CHIP_ERASE,
      FlashOpcode.WRITE_PAGE, FlashOpcode.READ_PAGE]

theorem flash_probe_guards_operations_witness :
    ((0xFF : Nat) = 0x00 ∨ (0xFF : Nat) = 0xFF)
      ∧ (flashOp ⟨0xFF, 0, fun _ => 0⟩ [0x42] true false).2
          = Outcome.err "Flash does not seem correctly connected to the FPGA!"
      ∧ (∀ e ∈ (read_flash_op ⟨0xFF, 0, fun _ => 0⟩ 512).1,
          touchesFlashContents e = false) :=
  ⟨Or.inr rfl,
    (flash_probe_guards_operations ⟨0xFF, 0, fun _ => 0⟩ [0x42] true false 512
        (Or.inr rfl)).2.1,
    (flash_probe_guards_operations ⟨0xFF, 0, fun _ => 0⟩ [0x42] true false 512
        (Or.inr rfl)).2.2.2.2.2⟩

/-- The five-event trace of one successful `_flash_write_page`: the
write-enable sequence (busy poll, ENABLE_WRITE, status read observing the
write-enable bit), the WRITE_PAGE command, and the closing busy poll. -/
def pageWriteBlock (address : Nat) (data : List Nat) : List FlashEvent :=
  [FlashEvent.spi [FlashOpcode.READ_STATUS1, 0],
    FlashEvent.spi [FlashOpcode.ENABLE_WRITE],
    FlashEvent.spi [FlashOpcode.READ_STATUS1, 0],
    FlashEvent.spi (FlashOpcode.WRITE_PAGE :: (addressBytes3 address ++ data)),
    FlashEvent.spi [FlashOpcode.READ_STATUS1, 0]]

/-- The `(address, page)` pairs that `flash()`'s page loop is expected to
program: consecutive 256-byte chunks at consecutive addresses. -/
def chunkSeqs : Nat → List Nat → List (Nat × List Nat)
  | _, [] => []
  | address, b :: rest =>
      let chunk := List.take SPI_FLASH_PAGE_SIZE (b :: rest)
      (address, chunk)
        :: chunkSeqs (address + chunk.length) (List.drop SPI_FLASH_PAGE_SIZE (b :: rest))
termination_by _ remaining => remaining.length
decreasing_by
  simp [SPI_FLASH_PAGE_SIZE]
  omega

theorem flash_write_page_ok (dev : FlashDevice)
    (hNB : dev.status &&& SPI_FLASH_BUSY_MASK = 0)
    (hWE : dev.status &&& SPI_FLASH_WRITE_MASK ≠ 0) (address : Nat) (data : List Nat) :
    flash_write_page dev address data = (pageWriteBlock address data, Outcome.ok ()) := by
  simp [flash_write_page, enable_writing_to_flash, flash_wait_for_completion,
    get_flash_status, seqE, hNB, hWE, pageWriteBlock]

theorem pageWriteSeqs_block (address : Nat) (data : List Nat) (t : List FlashEvent) :
    pageWriteSeqs (pageWriteBlock address data ++ t)
      = ((address / 65536 % 256 * 256 + address / 256 % 256) * 256 + address % 256,
          data) :: pageWriteSeqs t := rfl

theorem addressBytes3_decode (address : Nat) (h : address < 16777216) :
    (address / 65536 % 256 * 256 + address / 256 % 256) * 256 + address % 256
      = address := by
  omega

/-- One successful iteration of the page loop. -/
theorem writePagesLoop_cons (dev : FlashDevice)
    (hNB : dev.status &&& SPI_FLASH_BUSY_MASK = 0)
    (hWE : dev.status &&& SPI_FLASH_WRITE_MASK ≠ 0) (address b : Nat) (rest : List Nat) :
    writePagesLoop dev address (b :: rest)
      = (pageWriteBlock address (List.take SPI_FLASH_PAGE_SIZE (b :: rest))
            ++ (writePagesLoop dev
                (address + (List.take SPI_FLASH_PAGE_SIZE (b :: rest)).length)
                (List.drop SPI_FLASH_PAGE_SIZE (b :: rest))).1,
          (writePagesLoop dev
              (address + (List.take SPI_FLASH_PAGE_SIZE (b :: rest)).length)
              (List.drop SPI_FLASH_PAGE_SIZE (b :: rest))).2) := by
  rw [writePagesLoop, flash_write_page_ok dev hNB hWE]
  rfl

/-- Trace and outcome of the whole page loop of `flash()`: it succeeds and
its write-enable + write-page + busy-poll sequences are exactly the
256-byte chunks at consecutive addresses. -/
theorem writePagesLoop_seqs (dev : FlashDevice)
    (hNB : dev.status &&& SPI_FLASH_BUSY_MASK = 0)
    (hWE : dev.status &&& SPI_FLASH_WRITE_MASK ≠ 0) :
    ∀ (n : Nat) (rem : List Nat) (address : Nat), rem.length ≤ n →
      address + rem.length ≤ 16777216 →
      (writePagesLoop dev address rem).2 = Outcome.ok ()
        ∧ ∀ t, pageWriteSeqs ((writePagesLoop dev address rem).1 ++ t)
            = chunkSeqs address rem ++ pageWriteSeqs t := by
  intro n
  induction n with
  | zero =>
      intro rem address hlen _
      have hnil : rem = [] := List.eq_nil_of_length_eq_zero (Nat.le_zero.mp hlen)
      subst hnil
      exact ⟨by simp [writePagesLoop], fun t => by simp [writePagesLoop, chunkSeqs]⟩
  | succ m ih =>
      intro rem address hlen haddr
      cases rem with
      | nil => exact ⟨by simp [writePagesLoop], fun t => by simp [writePagesLoop, chunkSeqs]⟩
      | cons b rest =>
          have hlen' : (List.drop SPI_FLASH_PAGE_SIZE (b :: rest)).length ≤ m := by
            simp only [List.length_drop, List.length_cons] at *
            simp only [SPI_FLASH_PAGE_SIZE]
            omega
          have hchunk : (List.take SPI_FLASH_PAGE_SIZE (b :: rest)).length
              + (List.drop SPI_FLASH_PAGE_SIZE (b :: rest)).length
              = (b :: rest).length := by
            simp [List.length_take, List.length_drop]
            omega
          have haddr' : address + (List.take SPI_FLASH_PAGE_SIZE (b :: rest)).length
              + (List.drop SPI_FLASH_PAGE_SIZE (b :: rest)).length ≤ 16777216 := by
            omega
          obtain ⟨hout, hseq⟩ := ih (List.drop SPI_FLASH_PAGE_SIZE (b :: rest))
            (address + (List.take SPI_FLASH_PAGE_SIZE (b :: rest)).length) hlen' haddr'
          rw [writePagesLoop_cons dev hNB hWE]
          refine ⟨hout, fun t => ?_⟩
          rw [List.append_assoc, pageWriteSeqs_block, hseq t,
            addressBytes3_decode address (by
              have : 0 < (b :: rest).length := by simp
              omega)]
          rw [chunkSeqs]
          simp

/-- Full trace of `flash(bitstream)` (defaults: `erase_first=True`,
`disable_protections=False`) against a present, idle, write-enabled flash:
background-SPI entry, the `READ_ID` probe, the erase sequence
(write-enable, CHIP_ERASE, busy poll), the page loop, and the closing
reconfiguration trigger. -/
theorem flashOp_trace (dev : FlashDevice) (bs : List Nat)
    (hgood : ¬(dev.idByte = 0x00 ∨ dev.idByte = 0xFF))
    (hNB : dev.status &&& SPI_FLASH_BUSY_MASK = 0)
    (hWE : dev.status &&& SPI_FLASH_WRITE_MASK ≠ 0)
    (hlen : bs.length ≤ 16777216) :
    flashOp dev bs true false
      = (enter_background_spi
          ++ FlashEvent.spi [FlashOpcode.READ_ID, 0, 0, 0, 0]
          :: FlashEvent.spi [FlashOpcode.READ_STATUS1, 0]
          :: FlashEvent.spi [FlashOpcode.ENABLE_WRITE]
          :: FlashEvent.spi [FlashOpcode.READ_STATUS1, 0]
          :: FlashEvent.spi [FlashOpcode.CHIP_ERASE]
          :: FlashEvent.spi [FlashOpcode.READ_STATUS1, 0]
          :: ((writePagesLoop dev 0 bs).1 ++ [FlashEvent.reconfig]),
        Outcome.ok ()) := by
  obtain ⟨hok, -⟩ := writePagesLoop_seqs dev hNB hWE bs.length bs 0 le_rfl
    (by omega)
  rcases hl : writePagesLoop dev 0 bs with ⟨tr, out⟩
  rw [hl] at hok
  simp only at hok
  subst hok
  simp [flashOp, seqE, enable_writing_to_flash, flash_wait_for_completion,
    get_flash_status, hNB, hWE, hgood, hl, enter_background_spi]

/-- C2 amended: `flash(bitstream)` (which takes no offset parameter) writes
the bitstream in 256-byte pages at consecutive addresses starting at
address 0: with a bitstream of at most one page it issues exactly one
write-enable + write-page + busy-poll sequence, at address 0, carrying the
whole bitstream; with between 257 and 512 bytes it issues exactly two such
sequences, at addresses 0 and 256; and the operation completes
successfully. -/
theorem flash_page_writes (dev : FlashDevice) (bs : List Nat)
    (hgood : ¬(dev.idByte = 0x00 ∨ dev.idByte = 0xFF))
    (hNB : dev.status &&& SPI_FLASH_BUSY_MASK = 0)
    (hWE : dev.status &&& SPI_FLASH_WRITE_MASK ≠ 0) :
    (0 < bs.length → bs.length ≤ 256 →
        pageWriteSeqs (flashOp dev bs true false).1 = [(0, bs)])
      ∧ (256 < bs.length → bs.length ≤ 512 →
          pageWriteSeqs (flashOp dev bs true false).1
            = [(0, List.take 256 bs), (256, List.drop 256 bs)])
      ∧ (bs.length ≤ 16777216 → (flashOp dev bs true false).2 = Outcome.ok ()) := by
  have hmain : bs.length ≤ 16777216 →
      pageWriteSeqs (flashOp dev bs true false).1 = chunkSeqs 0 bs := by
    intro hlen
    obtain ⟨-, hseq⟩ := writePagesLoop_seqs dev hNB hWE bs.length bs 0 le_rfl
      (by omega)
    rw [flashOp_trace dev bs hgood hNB hWE hlen]
    show pageWriteSeqs (FlashEvent.spi (List.replicate 8 0xFF)
        :: FlashEvent.spi [0x66] :: FlashEvent.spi [0x99]
        :: FlashEvent.spi [FlashOpcode.READ_ID, 0, 0, 0, 0]
        :: FlashEvent.spi [FlashOpcode.READ_STATUS1, 0]
        :: FlashEvent.spi [FlashOpcode.ENABLE_WRITE]
        :: FlashEvent.spi [FlashOpcode.READ_STATUS1, 0]
        :: FlashEvent.spi [FlashOpcode.CHIP_ERASE]
        :: FlashEvent.spi [FlashOpcode.READ_STATUS1, 0]
        :: ((writePagesLoop dev 0 bs).1 ++ [FlashEvent.reconfig])) = chunkSeqs 0 bs
    have hpre : ∀ X, pageWriteSeqs (FlashEvent.spi (List.replicate 8 0xFF)
        :: FlashEvent.spi [0x66] :: FlashEvent.spi [0x99]
        :: FlashEvent.spi [FlashOpcode.READ_ID, 0, 0, 0, 0]
        :: FlashEvent.spi [FlashOpcode.READ_STATUS1, 0]
        :: FlashEvent.spi [FlashOpcode.ENABLE_WRITE]
        :: FlashEvent.spi [FlashOpcode.READ_STATUS1, 0]
        :: FlashEvent.spi [FlashOpcode.CHIP_ERASE]
        :: FlashEvent.spi [FlashOpcode.READ_STATUS1, 0] :: X) = pageWriteSeqs X :=
      fun X => rfl
    rw [hpre, hseq [FlashEvent.reconfig]]
    show chunkSeqs 0 bs ++ [] = chunkSeqs 0 bs
    simp
  refine ⟨?_, ?_, ?_⟩
  · intro hpos hle
    rw [hmain (by omega)]
    cases bs with
    | nil => simp at hpos
    | cons b rest =>
        rw [chunkSeqs]
        simp only [SPI_FLASH_PAGE_SIZE]
        rw [List.take_of_length_le hle, List.drop_eq_nil_of_le hle]
        rw [chunkSeqs]
  · intro hgt hle
    rw [hmain (by omega)]
    cases bs with
    | nil => simp at hgt
    | cons b rest =>
        rw [chunkSeqs]
        simp only [SPI_FLASH_PAGE_SIZE]
        have h256 : (List.take 256 (b :: rest)).length = 256 := by
          rw [List.length_take]
          omega
        rw [h256]
        rcases hd : List.drop 256 (b :: rest) with _ | ⟨c, cs⟩
        · exfalso
          have hlen2 : (List.drop 256 (b :: rest)).length = (b :: rest).length - 256 :=
            List.length_drop 256 (b :: rest)
          rw [hd] at hlen2
          simp only [List.length_nil] at hlen2
          omega
        · rw [chunkSeqs]
          simp only [SPI_FLASH_PAGE_SIZE]
          have hdlen : (c :: cs).length ≤ 256 := by
            have hlen3 : (List.drop 256 (b :: rest)).length = (b :: rest).length - 256 :=
              List.length_drop 256 (b :: rest)
            rw [hd] at hlen3
            omega
          rw [List.take_of_length_le hdlen, List.drop_eq_nil_of_le hdlen]
          rw [chunkSeqs]
  · intro hlen
    rw [flashOp_trace dev bs hgood hNB hWE hlen]

theorem flash_page_writes_witness :
    (¬((0xEF : Nat) = 0x00 ∨ (0xEF : Nat) = 0xFF))
      ∧ ((2 : Nat) &&& SPI_FLASH_BUSY_MASK = 0)
      ∧ ((2 : Nat) &&& SPI_FLASH_WRITE_MASK ≠ 0)
      ∧ pageWriteSeqs
            (flashOp ⟨0xEF, 2, fun _ => 0⟩ (List.replicate 256 0xAA) true false).1
          = [(0, List.replicate 256 0xAA)]
      ∧ pageWriteSeqs
            (flashOp ⟨0xEF, 2, fun _ => 0⟩ (List.replicate 257 0xAA) true false).1
          = [(0, List.take 256 (List.replicate 257 0xAA)),
              (256, List.drop 256 (List.replicate 257 0xAA))]
      ∧ (flashOp ⟨0xEF, 2, fun _ => 0⟩ (List.replicate 256 0xAA) true false).2
          = Outcome.ok () :=
  ⟨by decide, by decide, by decide,
    (flash_page_writes ⟨0xEF, 2, fun _ => 0⟩ (List.replicate 256 0xAA)
        (by decide) (by decide) (by decide)).1 (by simp) (by simp),
    (flash_page_writes ⟨0xEF, 2, fun _ => 0⟩ (List.replicate 257 0xAA)
        (by decide) (by decide) (by decide)).2.1 (by simp) (by simp),
    (flash_page_writes ⟨0xEF, 2, fun _ => 0⟩ (List.replicate 256 0xAA)
        (by decide) (by decide) (by decide)).2.2 (by simp)⟩

/-- Modelled from the spec: `flash(bitstream: bytes, offset: u32 = 0)`
"accepts an optional byte offset defaulting to 0 and writes the bitstream in
256-byte pages at consecutive addresses starting at that offset" — the page
addresses such an interface would program for a bitstream of the given
length. -/
def flashSpecPageAddresses : Nat → Nat → List Nat
  | _, 0 => []
  | offset, len + 1 =>
      offset :: flashSpecPageAddresses (offset + min 256 (len + 1))
        (len + 1 - min 256 (len + 1))
termination_by _ len => len
decreasing_by
  omega

/-- C2 counterexample: the source's `flash()` has no offset parameter — its
only calling convention programs a one-page bitstream at address 0, whereas
the offset interface claimed by the spec, pointed at offset 512, would
program that page at address 512. -/
theorem flash_offset_counterexample :
    pageWriteSeqs (flashOp ⟨0xEF, 2, fun _ => 0⟩ [0x42] true false).1 = [(0, [0x42])]
      ∧ flashSpecPageAddresses 512 [0x42].length = [512]
      ∧ (0 : Nat) ≠ 512 := by
  refine ⟨?_, by simp [flashSpecPageAddresses], by decide⟩
  have h := writePagesLoop_seqs ⟨0xEF, 2, fun _ => 0⟩ (by decide) (by decide)
    1 [0x42] 0 (by simp) (by simp)
  rw [flashOp_trace ⟨0xEF, 2, fun _ => 0⟩ [0x42] (by decide) (by decide) (by decide)
    (by simp)]
  show pageWriteSeqs (FlashEvent.spi (List.replicate 8 0xFF)
      :: FlashEvent.spi [0x66] :: FlashEvent.spi [0x99]
      :: FlashEvent.spi [FlashOpcode.READ_ID, 0, 0, 0, 0]
      :: FlashEvent.spi [FlashOpcode.READ_STATUS1, 0]
      :: FlashEvent.spi [FlashOpcode.ENABLE_WRITE]
      :: FlashEvent.spi [FlashOpcode.READ_STATUS1, 0]
      :: FlashEvent.spi [FlashOpcode.CHIP_ERASE]
      :: FlashEvent.spi [FlashOpcode.READ_STATUS1, 0]
      :: ((writePagesLoop ⟨0xEF, 2, fun _ => 0⟩ 0 [0x42]).1 ++ [FlashEvent.reconfig]))
    = [(0, [0x42])]
  rw [show ∀ X, pageWriteSeqs (FlashEvent.spi (List.replicate 8 0xFF)
      :: FlashEvent.spi [0x66] :: FlashEvent.spi [0x99]
      :: FlashEvent.spi [FlashOpcode.READ_ID, 0, 0, 0, 0]
      :: FlashEvent.spi [FlashOpcode.READ_STATUS1, 0]
      :: FlashEvent.spi [FlashOpcode.ENABLE_WRITE]
      :: FlashEvent.spi [FlashOpcode.READ_STATUS1, 0]
      :: FlashEvent.spi [FlashOpcode.CHIP_ERASE]
      :: FlashEvent.spi [FlashOpcode.READ_STATUS1, 0] :: X) = pageWriteSeqs X
    from fun X => rfl]
  rw [h.2 [FlashEvent.reconfig]]
  simp [chunkSeqs, pageWriteSeqs, SPI_FLASH_PAGE_SIZE]

theorem seqE_ok {α β : Type} (evs : List FlashEvent) (a : α)
    (f : α → List FlashEvent × Outcome β) :
    seqE (evs, Outcome.ok a) f = (evs ++ (f a).1, (f a).2) := rfl

theorem seqE_err {α β : Type} (evs : List FlashEvent) (m : String)
    (f : α → List FlashEvent × Outcome β) :
    seqE (evs, Outcome.err m) f = (evs, Outcome.err m) := rfl

theorem seqE_hang {α β : Type} (evs : List FlashEvent)
    (f : α → List FlashEvent × Outcome β) :
    seqE (evs, Outcome.hang) f = (evs, Outcome.hang) := rfl

/-- Scan of a trace continued from the two previous events `a` (two back)
and `b` (one back): every `WRITE_PAGE` must be immediately preceded by the
`ENABLE_WRITE` command and the status read observing the write-enable bit,
and immediately followed by a busy-poll status read. -/
def wpGuardedFrom : FlashEvent → FlashEvent → List FlashEvent → Bool
  | _, _, [] => true
  | a, b, c :: rest =>
      (if isWritePageEvent c then
          a == FlashEvent.spi [FlashOpcode.ENABLE_WRITE]
            && b == FlashEvent.spi [FlashOpcode.READ_STATUS1, 0]
            && (match rest with
                | FlashEvent.spi d :: _ => d == [FlashOpcode.READ_STATUS1, 0]
                | _ => false)
        else true)
        && wpGuardedFrom b c rest

/-- Every `WRITE_PAGE` in the trace sits between its write-enable sequence
and its busy poll (and in particular cannot be one of the first two
events). -/
def wpGuarded : List FlashEvent → Bool
  | [] => true
  | [e] => !isWritePageEvent e
  | e1 :: e2 :: rest =>
      !isWritePageEvent e1 && !isWritePageEvent e2 && wpGuardedFrom e1 e2 rest

theorem wpGuardedFrom_block (a b : FlashEvent) (address : Nat) (data : List Nat)
    (t : List FlashEvent) :
    wpGuardedFrom a b (pageWriteBlock address data ++ t)
      = wpGuardedFrom
          (FlashEvent.spi (FlashOpcode.WRITE_PAGE :: (addressBytes3 address ++ data)))
          (FlashEvent.spi [FlashOpcode.READ_STATUS1, 0]) t := rfl

/-- The page loop preserves the write-page guard, whatever two events
precede it, provided the guard holds of the continuation from any context. -/
theorem wpGuardedFrom_writePagesLoop (dev : FlashDevice)
    (hNB : dev.status &&& SPI_FLASH_BUSY_MASK = 0)
    (hWE : dev.status &&& SPI_FLASH_WRITE_MASK ≠ 0) :
    ∀ (n : Nat) (rem : List Nat), rem.length ≤ n →
      ∀ (address : Nat) (a b : FlashEvent) (t : List FlashEvent),
        (∀ a' b', wpGuardedFrom a' b' t = true) →
        wpGuardedFrom a b ((writePagesLoop dev address rem).1 ++ t) = true := by
  intro n
  induction n with
  | zero =>
      intro rem hlen address a b t ht
      have hnil : rem = [] := List.eq_nil_of_length_eq_zero (Nat.le_zero.mp hlen)
      subst hnil
      have : (writePagesLoop dev address ([] : List Nat)).1 = [] := by
        simp [writePagesLoop]
      rw [this, List.nil_append]
      exact ht a b
  | succ m ih =>
      intro rem hlen address a b t ht
      cases rem with
      | nil =>
          have : (writePagesLoop dev address ([] : List Nat)).1 = [] := by
            simp [writePagesLoop]
          rw [this, List.nil_append]
          exact ht a b
      | cons x rest =>
          rw [writePagesLoop_cons dev hNB hWE, List.append_assoc]
          rw [wpGuardedFrom_block]
          apply ih
          · simp only [List.length_drop, List.length_cons] at *
            simp only [SPI_FLASH_PAGE_SIZE]
            omega
          · exact ht

/-- The trace of the optional protection-clear step of `flash()`. -/
def protectionClearBlock : List FlashEvent :=
  [FlashEvent.spi [FlashOpcode.READ_STATUS1, 0],
    FlashEvent.spi [FlashOpcode.ENABLE_WRITE],
    FlashEvent.spi [FlashOpcode.READ_STATUS1, 0],
    FlashEvent.spi [FlashOpcode.WRITE_STATUS1, 0]]

/-- The trace of the optional chip-erase step of `flash()`. -/
def eraseBlockEvents : List FlashEvent :=
  [FlashEvent.spi [FlashOpcode.READ_STATUS1, 0],
    FlashEvent.spi [FlashOpcode.ENABLE_WRITE],
    FlashEvent.spi [FlashOpcode.READ_STATUS1, 0],
    FlashEvent.spi [FlashOpcode.CHIP_ERASE],
    FlashEvent.spi [FlashOpcode.READ_STATUS1, 0]]

/-- Trace of `flash()` for every flag combination, against a present, idle,
write-enabled flash. -/
theorem flashOp_trace_general (dev : FlashDevice) (bs : List Nat) (ef dp : Bool)
    (hgood : ¬(dev.idByte = 0x00 ∨ dev.idByte = 0xFF))
    (hNB : dev.status &&& SPI_FLASH_BUSY_MASK = 0)
    (hWE : dev.status &&& SPI_FLASH_WRITE_MASK ≠ 0)
    (hlen : bs.length ≤ 16777216) :
    flashOp dev bs ef dp
      = (enter_background_spi
          ++ FlashEvent.spi [FlashOpcode.READ_ID, 0, 0, 0, 0]
          :: ((if dp then protectionClearBlock else [])
            ++ ((if ef then eraseBlockEvents else [])
              ++ ((writePagesLoop dev 0 bs).1 ++ [FlashEvent.reconfig]))),
        Outcome.ok ()) := by
  obtain ⟨hok, -⟩ := writePagesLoop_seqs dev hNB hWE bs.length bs 0 le_rfl
    (by omega)
  rcases hl : writePagesLoop dev 0 bs with ⟨tr, out⟩
  rw [hl] at hok
  simp only at hok
  subst hok
  cases ef <;> cases dp <;>
    simp [flashOp, seqE, enable_writing_to_flash, flash_wait_for_completion,
      get_flash_status, hNB, hWE, hgood, hl, enter_background_spi,
      protectionClearBlock, eraseBlockEvents]

/-- C9: in every `flash()` call, a `WRITE_PAGE` command is only ever issued
right after the write-enable sequence whose status read observed the
write-enable bit set, and is immediately followed by the busy poll that must
observe the busy bit clear before the page write is treated as complete;
when the flash never reports write-enabled, no `WRITE_PAGE` is ever issued
and (whenever a write was actually required of an otherwise responsive,
present flash) an I/O error is raised instead. -/
theorem flash_write_enable_guard (dev : FlashDevice) (bs : List Nat) (ef dp : Bool) :
    (dev.status &&& SPI_FLASH_WRITE_MASK = 0 →
        (flashOp dev bs ef dp).1.all (fun e => !isWritePageEvent e) = true)
      ∧ (dev.status &&& SPI_FLASH_WRITE_MASK = 0 →
          dev.status &&& SPI_FLASH_BUSY_MASK = 0 →
          ¬(dev.idByte = 0x00 ∨ dev.idByte = 0xFF) →
          (bs ≠ [] ∨ ef = true ∨ dp = true) →
          (flashOp dev bs ef dp).2
            = Outcome.err "Flash did not enter a writeable state!")
      ∧ (dev.status &&& SPI_FLASH_WRITE_MASK ≠ 0 →
          dev.status &&& SPI_FLASH_BUSY_MASK = 0 →
          bs.length ≤ 16777216 →
          wpGuarded (flashOp dev bs ef dp).1 = true) := by
  refine ⟨?_, ?_, ?_⟩
  · intro hWE0
    by_cases hid : dev.idByte = 0x00 ∨ dev.idByte = 0xFF
    · simp [flashOp, seqE, hid, enter_background_spi, isWritePageEvent,
        FlashOpcode.WRITE_PAGE, FlashOpcode.READ_ID, FlashOpcode.READ_STATUS1,
        FlashOpcode.ENABLE_WRITE, FlashOpcode.WRITE_STATUS1,
        FlashOpcode.CHIP_ERASE]
    · by_cases hB : dev.status &&& SPI_FLASH_BUSY_MASK = 0
      · cases bs with
        | nil =>
            cases ef <;> cases dp <;>
              simp [flashOp, seqE, hid, hB, hWE0, enter_background_spi,
                enable_writing_to_flash, flash_wait_for_completion,
                get_flash_status, writePagesLoop, isWritePageEvent,
                FlashOpcode.WRITE_PAGE, FlashOpcode.READ_ID,
                FlashOpcode.READ_STATUS1, FlashOpcode.ENABLE_WRITE,
                FlashOpcode.WRITE_STATUS1, FlashOpcode.CHIP_ERASE]
        | cons x rest =>
            cases ef <;> cases dp <;>
              simp [flashOp, seqE, hid, hB, hWE0, enter_background_spi,
                enable_writing_to_flash, flash_wait_for_completion,
                get_flash_status, writePagesLoop, flash_write_page,
                isWritePageEvent, FlashOpcode.WRITE_PAGE, FlashOpcode.READ_ID,
                FlashOpcode.READ_STATUS1, FlashOpcode.ENABLE_WRITE,
                FlashOpcode.WRITE_STATUS1, FlashOpcode.CHIP_ERASE]
      · cases bs with
        | nil =>
            cases ef <;> cases dp <;>
              simp [flashOp, seqE, hid, hB, hWE0, enter_background_spi,
                enable_writing_to_flash, flash_wait_for_completion,
                get_flash_status, writePagesLoop, isWritePageEvent,
                FlashOpcode.WRITE_PAGE, FlashOpcode.READ_ID,
                FlashOpcode.READ_STATUS1, FlashOpcode.ENABLE_WRITE,
                FlashOpcode.WRITE_STATUS1, FlashOpcode.CHIP_ERASE]
        | cons x rest =>
            cases ef <;> cases dp <;>
              simp [flashOp, seqE, hid, hB, hWE0, enter_background_spi,
                enable_writing_to_flash, flash_wait_for_completion,
                get_flash_status, writePagesLoop, flash_write_page,
                isWritePageEvent, FlashOpcode.WRITE_PAGE, FlashOpcode.READ_ID,
                FlashOpcode.READ_STATUS1, FlashOpcode.ENABLE_WRITE,
                FlashOpcode.WRITE_STATUS1, FlashOpcode.CHIP_ERASE]
  · intro hWE0 hNB hgood hneed
    rcases hneed with hbs | hef | hdp
    · cases bs with
      | nil => exact absurd rfl hbs
      | cons x rest =>
          cases ef <;> cases dp <;>
            simp [flashOp, seqE, hgood, hNB, hWE0, enter_background_spi,
              enable_writing_to_flash, flash_wait_for_completion,
              get_flash_status, writePagesLoop, flash_write_page]
    · subst hef
      cases dp <;>
        simp [flashOp, seqE, hgood, hNB, hWE0, enter_background_spi,
          enable_writing_to_flash, flash_wait_for_completion, get_flash_status]
    · subst hdp
      simp [flashOp, seqE, hgood, hNB, hWE0, enter_background_spi,
        enable_writing_to_flash, flash_wait_for_completion, get_flash_status]
  · intro hWE hNB hlen
    by_cases hid : dev.idByte = 0x00 ∨ dev.idByte = 0xFF
    · simp [flashOp, seqE, hid, enter_background_spi, wpGuarded, wpGuardedFrom,
        isWritePageEvent, FlashOpcode.WRITE_PAGE, FlashOpcode.READ_ID,
        FlashOpcode.READ_STATUS1, FlashOpcode.ENABLE_WRITE,
        FlashOpcode.WRITE_STATUS1, FlashOpcode.CHIP_ERASE]
    · rw [flashOp_trace_general dev bs ef dp hid hNB hWE hlen]
      have ht : ∀ a' b', wpGuardedFrom a' b' [FlashEvent.reconfig] = true :=
        fun a' b' => rfl
      cases ef <;> cases dp
      · show wpGuardedFrom (FlashEvent.spi [0x99])
            (FlashEvent.spi [FlashOpcode.READ_ID, 0, 0, 0, 0])
            ((writePagesLoop dev 0 bs).1 ++ [FlashEvent.reconfig]) = true
        exact wpGuardedFrom_writePagesLoop dev hNB hWE bs.length bs le_rfl 0 _ _ _ ht
      · show wpGuardedFrom (FlashEvent.spi [FlashOpcode.READ_STATUS1, 0])
            (FlashEvent.spi [FlashOpcode.WRITE_STATUS1, 0])
            ((writePagesLoop dev 0 bs).1 ++ [FlashEvent.reconfig]) = true
        exact wpGuardedFrom_writePagesLoop dev hNB hWE bs.length bs le_rfl 0 _ _ _ ht
      · show wpGuardedFrom (FlashEvent.spi [FlashOpcode.CHIP_ERASE])
            (FlashEvent.spi [FlashOpcode.READ_STATUS1, 0])
            ((writePagesLoop dev 0 bs).1 ++ [FlashEvent.reconfig]) = true
        exact wpGuardedFrom_writePagesLoop dev hNB hWE bs.length bs le_rfl 0 _ _ _ ht
      · show wpGuardedFrom (FlashEvent.spi [FlashOpcode.CHIP_ERASE])
            (FlashEvent.spi [FlashOpcode.READ_STATUS1, 0])
            ((writePagesLoop dev 0 bs).1 ++ [FlashEvent.reconfig]) = true
        exact wpGuardedFrom_writePagesLoop dev hNB hWE bs.length bs le_rfl 0 _ _ _ ht

theorem flash_write_enable_guard_witness :
    ((0 : Nat) &&& SPI_FLASH_WRITE_MASK = 0)
      ∧ (flashOp ⟨0xEF, 0, fun _ => 0⟩ [1, 2, 3] true false).1.all
          (fun e => !isWritePageEvent e) = true
      ∧ (flashOp ⟨0xEF, 0, fun _ => 0⟩ [1, 2, 3] true false).2
          = Outcome.err "Flash did not enter a writeable state!"
      ∧ ((2 : Nat) &&& SPI_FLASH_WRITE_MASK ≠ 0)
      ∧ wpGuarded (flashOp ⟨0xEF, 2, fun _ => 0⟩ [0x42] true false).1 = true :=
  ⟨by decide,
    (flash_write_enable_guard ⟨0xEF, 0, fun _ => 0⟩ [1, 2, 3] true false).1
      (by decide),
    (flash_write_enable_guard ⟨0xEF, 0, fun _ => 0⟩ [1, 2, 3] true false).2.1
      (by decide) (by decide) (by decide) (Or.inr (Or.inl rfl)),
    by decide,
    (flash_write_enable_guard ⟨0xEF, 2, fun _ => 0⟩ [0x42] true false).2.2
      (by decide) (by decide) (by simp)⟩

end Apollo
